import Mathlib

set_option maxHeartbeats 1000000
set_option maxRecDepth 4000

/-!
Shallow embedding of the Algo Rangers AI Chatbot support core:
`support_logic.py` (intent classification and policy resolution),
`database.py` (ticket store operations), and the per-turn chat handler of
`streamlit_app.py`.

Modelling conventions:
* Python strings are lists of characters (`Str`); `needle in hay` becomes
  `strContains`, `s.lower()` and `s.upper()` map `Char.toLower`/`Char.toUpper`.
* Confidence scores are stored in hundredths (99 stands for 0.99, 70 for 0.7),
  so every literal of the source appears as an exact integer.
* The remote Groq call is an oracle parameter: it may raise (`exn`), produce
  un-parsable JSON (`jsonError`), or produce a parsed payload after the
  dictionary `get` defaults of the source have been applied (`parsed`).
* A raised Python exception is an `Except.error`; the chat driver catches it
  at the top of the turn.
-/

abbrev Str := List Char

/-- Python substring test `needle in hay`. -/
def strContains (hay needle : Str) : Bool :=
  match hay with
  | [] => needle.isEmpty
  | c :: t => needle.isPrefixOf (c :: t) || strContains t needle

/-- Python `any(word in hay for word in needles)`. -/
def containsAny (hay : Str) (needles : List Str) : Bool :=
  needles.any (fun n => strContains hay n)

/-- Python `s.lower()` (ASCII, as used by the source). -/
def lowerStr (s : Str) : Str := s.map Char.toLower

/-- Python `s.upper()` (ASCII, as used by the source). -/
def upperStr (s : Str) : Str := s.map Char.toUpper

def wordCountAux : Str → Bool → Nat
  | [], _ => 0
  | c :: t, inWord =>
    if c.isWhitespace then wordCountAux t false
    else (if inWord then 0 else 1) + wordCountAux t true

/-- Python `len(s.split())`: the number of maximal non-whitespace runs. -/
def wordCount (s : Str) : Nat := wordCountAux s false

/-- The regex `TCKT-\d{8}-\d{3}` matched at the head of `s`. -/
def ticketAt (s : Str) : Bool :=
  decide (17 ≤ s.length) &&
  s.take 5 == "TCKT-".toList &&
  ((s.drop 5).take 8).all Char.isDigit &&
  (s.drop 13).take 1 == ['-'] &&
  ((s.drop 14).take 3).all Char.isDigit

/-- Python `re.search(r"TCKT-\d{8}-\d{3}", s) is not None`. -/
def searchTicket (s : Str) : Bool :=
  match s with
  | [] => false
  | c :: t => ticketAt (c :: t) || searchTicket t

/-- Python `re.search(r"TCKT-\d{8}-\d{3}", s).group()`: the first match. -/
def extractTicket (s : Str) : Str :=
  match s with
  | [] => []
  | c :: t => if ticketAt (c :: t) then (c :: t).take 17 else extractTicket t

/-- Result triple of `classify_query_with_ai` / `_fallback_classification`.
`confidence` is in hundredths (99 stands for the source literal 0.99). -/
structure Classification where
  intent : String
  confidence : Nat
  reasoning : String
deriving DecidableEq

def statusKw : List Str :=
  ["check status".toList, "ticket status".toList, "status of my ticket".toList]
def greetKw : List Str := ["hi".toList, "hello".toList, "hey".toList]
def shipKw : List Str := ["ship".toList, "delivery".toList, "tracking".toList]
def refundKw : List Str := ["refund".toList, "money back".toList]
def returnKw : List Str := ["return".toList, "exchange".toList, "broken".toList]
def loginKw : List Str := ["login".toList, "password".toList, "sign in".toList]
def accountKw : List Str := ["account".toList, "profile".toList, "billing".toList]
def orderKw : List Str := ["order status".toList, "where is my order".toList]
def ticketReqKw : List Str :=
  ["create ticket".toList, "new ticket".toList, "need help".toList]

/-- `SupportAgent._fallback_classification`: ordered keyword rules. -/
def fallback_classification (msg : Str) : Classification :=
  let ml := lowerStr msg
  if searchTicket (upperStr msg) then ⟨"ticket_lookup", 99, "Contains ticket ID"⟩
  else if containsAny ml statusKw then
    ⟨"ticket_status_request", 80, "Ticket status keywords"⟩
  else if containsAny ml greetKw && decide (wordCount ml ≤ 3) then
    ⟨"greeting", 90, "Simple greeting"⟩
  else if containsAny ml shipKw then ⟨"shipping", 70, "Shipping keywords"⟩
  else if containsAny ml refundKw then ⟨"refund", 70, "Refund keywords"⟩
  else if containsAny ml returnKw then ⟨"return", 70, "Return keywords"⟩
  else if containsAny ml loginKw then ⟨"login", 70, "Login keywords"⟩
  else if containsAny ml accountKw then ⟨"account", 70, "Account keywords"⟩
  else if containsAny ml orderKw then ⟨"order_status", 70, "Order status keywords"⟩
  else if containsAny ml ticketReqKw then
    ⟨"ticket_request", 80, "Ticket creation keywords"⟩
  else ⟨"complex", 50, "No specific category matched"⟩

def validIntents : List String :=
  ["ticket_lookup", "ticket_status_request", "greeting", "shipping",
   "refund", "return", "login", "account", "order_status",
   "ticket_request", "complex"]

/-- Outcome of the remote Groq classification call, observed after the
defensive JSON handling of the source: the call may raise, the reply may fail
JSON parsing, or it yields the `(intent, confidence, reasoning)` triple after
the `result.get(...)` defaults have been applied. -/
inductive RemoteResult where
  | exn : RemoteResult
  | jsonError : RemoteResult
  | parsed : String → Nat → String → RemoteResult

/-- `SupportAgent.classify_query_with_ai`.  `client` is whether the Groq
client was initialised; `remote` is the remote-call oracle. -/
def classify_query_with_ai (client : Bool) (remote : Str → RemoteResult)
    (msg : Str) : Classification :=
  if client = false then fallback_classification msg
  else if searchTicket (upperStr msg) then
    ⟨"ticket_lookup", 99, "Contains ticket ID pattern"⟩
  else
    match remote msg with
    | .exn => fallback_classification msg
    | .jsonError => fallback_classification msg
    | .parsed intent conf reasoning =>
      if validIntents.contains intent then ⟨intent, conf, reasoning⟩
      else ⟨"complex", 50, reasoning⟩

/-- One entry of `SupportAgent.faq_responses`, plus the `ai_confidence` /
`ai_reasoning` keys that `classify_query` adds to the copied dictionary.
Absent dictionary keys are `none` / `false` (the `.get` defaults). -/
structure ResponseConfig where
  response : String
  can_answer : Bool
  follow_up : Option String := none
  needs_ticket : Bool := false
  ai_confidence : Option Nat := none
  ai_reasoning : Option String := none
deriving DecidableEq

def shippingConfig : ResponseConfig :=
  { response := "Our standard shipping takes 3-5 business days. Express shipping is available for 1-2 business days. You\x27ll receive a tracking number once your order ships.",
    can_answer := true }

def refundConfig : ResponseConfig :=
  { response := "Refunds are processed within 5-7 business days after we receive your return. The refund will be credited to your original payment method.",
    can_answer := true }

def returnConfig : ResponseConfig :=
  { response := "You can return items within 30 days of delivery. Items must be in original condition. Please visit our returns page or I can create a return ticket for you.",
    can_answer := false,
    follow_up := some "Would you like me to create a return ticket for you?" }

def loginConfig : ResponseConfig :=
  { response := "For login issues, please try resetting your password first. If that doesn\x27t work, I\x27ll create a support ticket for our technical team.",
    can_answer := false,
    follow_up := some "Would you like me to create a support ticket for your login issue?" }

def accountConfig : ResponseConfig :=
  { response := "For account changes, you can update most information in your profile settings. For billing or sensitive changes, I\x27ll need to create a support ticket.",
    can_answer := false,
    follow_up := some "Would you like me to create a ticket for account assistance?" }

def orderStatusConfig : ResponseConfig :=
  { response := "To check your order status, I\x27ll need your order number or ticket ID. Please share it with me.",
    can_answer := true }

def greetingConfig : ResponseConfig :=
  { response := "Hello! I\x27m your customer support assistant. How can I help you today?",
    can_answer := true }

def ticketStatusRequestConfig : ResponseConfig :=
  { response := "Sure! Please provide your ticket ID (format: TCKT-YYYYMMDD-XXX).",
    can_answer := true }

def ticketRequestConfig : ResponseConfig :=
  { response := "I\x27d be happy to create a support ticket for you. Could you please describe your issue in detail?",
    can_answer := false,
    needs_ticket := true }

def complexConfig : ResponseConfig :=
  { response := "I understand you need assistance, but this seems like a complex issue that would be best handled by our support team.",
    can_answer := false,
    follow_up := some "Would you like me to create a support ticket for you?",
    needs_ticket := true }

/-- The fixed dictionary `SupportAgent.faq_responses`. -/
def faq_responses : String → Option ResponseConfig
  | "shipping" => some shippingConfig
  | "refund" => some refundConfig
  | "return" => some returnConfig
  | "login" => some loginConfig
  | "account" => some accountConfig
  | "order_status" => some orderStatusConfig
  | "greeting" => some greetingConfig
  | "ticket_status_request" => some ticketStatusRequestConfig
  | "ticket_request" => some ticketRequestConfig
  | "complex" => some complexConfig
  | _ => none

/-- The `response_config['ai_confidence'] = ...` assignments of
`classify_query` on a copy of the table entry. -/
def withAi (cfg : ResponseConfig) (conf : Nat) (reas : String) : ResponseConfig :=
  { cfg with ai_confidence := some conf, ai_reasoning := some reas }

/-- The default dictionary that `classify_query` returns for an intent that
is not a key of `faq_responses`. -/
def complexDefault (conf : Nat) (reas : String) : ResponseConfig :=
  { response := "I understand you need assistance, but this seems like a complex issue that would be best handled by our support team.",
    can_answer := false,
    follow_up := some "Would you like me to create a support ticket for you?",
    needs_ticket := true,
    ai_confidence := some conf,
    ai_reasoning := some reas }

/-- The table-lookup-with-default tail of `classify_query` (lines 229-243 of
`support_logic.py`). -/
def resolve_intent (intent : String) (conf : Nat) (reas : String) :
    String × ResponseConfig :=
  match faq_responses intent with
  | some cfg => (intent, withAi cfg conf reas)
  | none => ("complex", complexDefault conf reas)

inductive PyErr where
  | attributeError : PyErr
deriving DecidableEq

/-- The second component of the `classify_query` result: either the
`{'ticket_id': ...}` dictionary of the lookup branch or a response
configuration dictionary. -/
inductive QueryInfo where
  | ticketInfo : Str → QueryInfo
  | config : ResponseConfig → QueryInfo
deriving DecidableEq

/-- `SupportAgent.classify_query`.  When the classifier labels a message
`ticket_lookup` although the message has no ticket-id substring, the source
evaluates `re.search(...).group()` on `None`, which raises `AttributeError`;
this is the `Except.error` branch. -/
def classify_query (client : Bool) (remote : Str → RemoteResult) (msg : Str) :
    Except PyErr (String × QueryInfo) :=
  let c := classify_query_with_ai client remote msg
  if c.intent = "ticket_lookup" then
    if searchTicket (upperStr msg) then
      .ok ("ticket_lookup", .ticketInfo (extractTicket (upperStr msg)))
    else
      .error .attributeError
  else
    let r := resolve_intent c.intent c.confidence c.reasoning
    .ok (r.1, .config r.2)

/-- `SupportAgent.get_ticket_category`. -/
def get_ticket_category (query_type : String) : String :=
  if query_type = "return" then "Returns"
  else if query_type = "refund" then "Refunds"
  else if query_type = "login" then "Technical"
  else if query_type = "account" then "Account"
  else if query_type = "shipping" then "Shipping"
  else if query_type = "order_status" then "Orders"
  else if query_type = "complex" then "General Support"
  else if query_type = "ticket_request" then "General Support"
  else "General Support"

def urgentKeywords : List Str :=
  ["urgent".toList, "emergency".toList, "asap".toList,
   "immediately".toList, "critical".toList, "broken".toList]

def highKeywords : List Str :=
  ["important".toList, "soon".toList, "quickly".toList, "deadline".toList]

/-- `SupportAgent.get_ticket_priority`. -/
def get_ticket_priority (msg : Str) : String :=
  let ml := lowerStr msg
  if containsAny ml urgentKeywords then "Urgent"
  else if containsAny ml highKeywords then "High"
  else "Medium"

/-! ## Ticket store (`database.py`) -/

/-- One row of the `support_tickets` table.  Timestamps are abstract natural
numbers supplied by the caller (`datetime.utcnow()` / `datetime.now()`). -/
structure Ticket where
  ticket_id : Str
  user_session_id : String
  issue_description : Str
  status : Str
  priority : String
  category : String
  created_at : Nat
  updated_at : Nat
  resolved_at : Option Nat := none
  assigned_agent : Option Str := none
deriving DecidableEq

def digitChar : Nat → Char
  | 0 => '0' | 1 => '1' | 2 => '2' | 3 => '3' | 4 => '4'
  | 5 => '5' | 6 => '6' | 7 => '7' | 8 => '8' | _ => '9'

def decimalAux : Nat → Nat → Str
  | 0, _ => []
  | fuel + 1, n =>
    if n < 10 then [digitChar n]
    else decimalAux fuel (n / 10) ++ [digitChar (n % 10)]

/-- Python `str(n)` for a natural number (the fuel is always sufficient). -/
def decimal (n : Nat) : Str := decimalAux (n + 1) n

/-- Python `s.zfill(3)` for an unsigned digit string. -/
def zfill3 (s : Str) : Str := List.replicate (3 - s.length) '0' ++ s

/-- The literal `f"TCKT-{today}-"` in front of the sequence number. -/
def ticketDayPrefix (today : Str) : Str := "TCKT-".toList ++ today ++ ['-']

/-- The count query of `generate_ticket_id`: rows whose `ticket_id` is
`LIKE "TCKT-{today}-%"`, i.e. has `ticketDayPrefix today` as a prefix. -/
def countToday (store : List Ticket) (today : Str) : Nat :=
  (store.filter (fun t => (ticketDayPrefix today).isPrefixOf t.ticket_id)).length

/-- `DatabaseManager.generate_ticket_id`. -/
def generate_ticket_id (store : List Ticket) (today : Str) : Str :=
  ticketDayPrefix today ++ zfill3 (decimal (countToday store today + 1))

/-- `DatabaseManager.create_support_ticket`: returns the new row and the
store after the committed insert. -/
def create_support_ticket (store : List Ticket) (today : Str) (now : Nat)
    (session_id : String) (issue_description : Str) (category : String)
    (priority : String) : Ticket × List Ticket :=
  let tid := generate_ticket_id store today
  let t : Ticket :=
    { ticket_id := tid, user_session_id := session_id,
      issue_description := issue_description, status := "Open".toList,
      priority := priority, category := category,
      created_at := now, updated_at := now }
  (t, store ++ [t])

/-- `DatabaseManager.get_ticket_by_id`: first row whose id equals the
upper-cased input. -/
def get_ticket_by_id (store : List Ticket) (tid : Str) : Option Ticket :=
  store.find? (fun t => t.ticket_id == upperStr tid)

/-- Python truthiness of the optional `assigned_agent` argument
(`None` and the empty string are falsy). -/
def truthyStr : Option Str → Bool
  | none => false
  | some s => !s.isEmpty

/-- Replace the first row satisfying `p` (the row the query returned). -/
def updateFirst (p : Ticket → Bool) (f : Ticket → Ticket) :
    List Ticket → List Ticket
  | [] => []
  | t :: ts => if p t then f t :: ts else t :: updateFirst p f ts

/-- The field assignments of `update_ticket_status` on the found row:
set the status, stamp `updated_at`, set `assigned_agent` if the argument is
truthy, stamp `resolved_at` if the lower-cased status is resolved/closed. -/
def updatedTicket (t : Ticket) (now : Nat) (status : Str)
    (assigned_agent : Option Str) : Ticket :=
  let t1 := { t with status := status, updated_at := now }
  let t2 := if truthyStr assigned_agent then
      { t1 with assigned_agent := assigned_agent } else t1
  if lowerStr status == "resolved".toList ||
      lowerStr status == "closed".toList then
    { t2 with resolved_at := some now } else t2

/-- `DatabaseManager.update_ticket_status`. -/
def update_ticket_status (store : List Ticket) (now : Nat) (tid : Str)
    (status : Str) (assigned_agent : Option Str) :
    Option Ticket × List Ticket :=
  match store.find? (fun t => t.ticket_id == upperStr tid) with
  | none => (none, store)
  | some t =>
    let t3 := updatedTicket t now status assigned_agent
    (some t3, updateFirst (fun u => u.ticket_id == upperStr tid) (fun _ => t3) store)

/-- `N` sequential calls of `create_support_ticket` on the same day. -/
def createSeq (store : List Ticket) (today : Str) (now : Nat) (sid : String)
    (desc : Str) (cat : String) (prio : String) : Nat → List Ticket
  | 0 => store
  | n + 1 =>
    (create_support_ticket (createSeq store today now sid desc cat prio n)
      today now sid desc cat prio).2

/-- The id assigned to the (0-based) `i`-th ticket of the sequential run. -/
def seqTicketId (store : List Ticket) (today : Str) (now : Nat) (sid : String)
    (desc : Str) (cat : String) (prio : String) (i : Nat) : Str :=
  generate_ticket_id (createSeq store today now sid desc cat prio i) today

/-- The numeric value of an ASCII digit (used to relate `decimal` to the
number it renders). -/
def digitVal (c : Char) : Nat := c.toNat - 48

/-- Reads a digit string back as a number; the left inverse of `decimal`. -/
def parseNat (s : Str) : Nat := s.foldl (fun a c => 10 * a + digitVal c) 0

/-! ## Chat turn handler (`streamlit_app.py`) -/

/-- `st.session_state.pending_ticket_info` when non-empty. -/
structure PendingInfo where
  description : Str
  category : String
  priority : String
deriving DecidableEq

/-- The per-session state the turn handler reads and writes: the
pending-confirmation flag, the pending ticket dictionary (`none` models the
empty dictionary), and the ticket table. -/
structure TurnState where
  pending_ticket_creation : Bool
  pending_ticket_info : Option PendingInfo
  store : List Ticket
deriving DecidableEq

def affirmTokens : List Str :=
  ["yes".toList, "please".toList, "create".toList, "y".toList]

def negTokens : List Str :=
  ["no".toList, "cancel".toList, "nevermind".toList]

/-- `ticket_info.get('description', prompt)`. -/
def pendingDescription : Option PendingInfo → Str → Str
  | none, prompt => prompt
  | some i, _ => i.description

/-- `ticket_info.get('category', 'General Support')`. -/
def pendingCategory : Option PendingInfo → String
  | none => "General Support"
  | some i => i.category

/-- `ticket_info.get('priority', 'Medium')`. -/
def pendingPriority : Option PendingInfo → String
  | none => "Medium"
  | some i => i.priority

def createdResponse (tid : Str) : String :=
  "Perfect! I\x27ve created a support ticket for you.\n\n**Ticket ID: " ++
  String.mk tid ++
  "**\n\nOur support team will review your issue and contact you soon. You can check the status anytime using the ticket ID."

def declineResponse : String :=
  "No problem! Is there anything else I can help you with today?"

def repromptResponse : String :=
  "I didn\x27t understand your response. Would you like me to create a support ticket? Please answer \x27yes\x27 or \x27no\x27."

def statusNarrative (status : Str) : String :=
  if lowerStr status == "open".toList then
    "currently being reviewed by our support team"
  else if lowerStr status == "in progress".toList then
    "being actively worked on by our support team"
  else if lowerStr status == "resolved".toList then "has been resolved"
  else "has status: " ++ String.mk status

def lookupFoundResponse (t : Ticket) : String :=
  "Thank you for providing your ticket ID. Your ticket **" ++
  String.mk t.ticket_id ++ "** " ++ statusNarrative t.status ++
  ". You\x27ll receive an update shortly."

def lookupMissingResponse (tid : Str) : String :=
  "I couldn\x27t find a ticket with ID " ++ String.mk tid ++
  ". Please double-check the ticket ID or contact our support team if you continue to have issues."

/-- Python truthiness of `query_info.get('follow_up')`. -/
def truthyOptString : Option String → Bool
  | none => false
  | some s => !(s == "")

/-- The chat-turn handler of `streamlit_app.py` (lines 207-311): the
pending-confirmation branch, the ticket-lookup branch, the canned-answer
branch, the ticket-offer branch, and the free-form language-model branch
(`llm` oracle).  A raised exception propagates as `Except.error`; the driver
catches it around the whole turn. -/
def handle_turn (client : Bool) (remote : Str → RemoteResult)
    (llm : Str → String) (today : Str) (now : Nat) (session_id : String)
    (st : TurnState) (prompt : Str) : Except PyErr (String × TurnState) :=
  if st.pending_ticket_creation then
    if containsAny (lowerStr prompt) affirmTokens then
      let info := st.pending_ticket_info
      let res := create_support_ticket st.store today now session_id
        (pendingDescription info prompt) (pendingCategory info)
        (pendingPriority info)
      .ok (createdResponse res.1.ticket_id, ⟨false, none, res.2⟩)
    else if containsAny (lowerStr prompt) negTokens then
      .ok (declineResponse, ⟨false, none, st.store⟩)
    else
      .ok (repromptResponse, st)
  else
    match classify_query client remote prompt with
    | .error e => .error e
    | .ok (_, .ticketInfo tid) =>
      match get_ticket_by_id st.store tid with
      | some t => .ok (lookupFoundResponse t, st)
      | none => .ok (lookupMissingResponse tid, st)
    | .ok (query_type, .config cfg) =>
      if query_type = "ticket_status_request" then .ok (cfg.response, st)
      else if cfg.can_answer then .ok (cfg.response, st)
      else if cfg.needs_ticket || !cfg.can_answer then
        if truthyOptString cfg.follow_up then
          .ok (cfg.response ++ "\n\n" ++ cfg.follow_up.getD "",
            ⟨true,
             some ⟨prompt, get_ticket_category query_type,
               get_ticket_priority prompt⟩,
             st.store⟩)
        else
          .ok (cfg.response, st)
      else
        .ok (llm prompt, st)

/-- The Clear Chat button handler (lines 177-181). -/
def clear_chat (st : TurnState) : TurnState := ⟨false, none, st.store⟩

/-- First component of a completed turn (empty string on a raised turn). -/
def turnResp : Except PyErr (String × TurnState) → String
  | .ok p => p.1
  | .error _ => ""

/-- Session state after a completed turn (a dummy state on a raised turn). -/
def turnNext : Except PyErr (String × TurnState) → TurnState
  | .ok p => p.2
  | .error _ => ⟨false, none, []⟩

/-! ## Concrete scenario data used by the claim witnesses -/

def c7Msg : Str := "I want to return this broken item".toList

def c7Turn : Except PyErr (String × TurnState) :=
  handle_turn false (fun _ => RemoteResult.exn) (fun _ => "")
    "20240101".toList 0 "sid" ⟨false, none, []⟩ c7Msg

def c4Prompt : Str := "cancel my order".toList

def c4State : TurnState :=
  ⟨true, some ⟨"my tv arrived damaged".toList, "Returns", "Urgent"⟩, []⟩

def c4Turn : Except PyErr (String × TurnState) :=
  handle_turn false (fun _ => RemoteResult.exn) (fun _ => "")
    "20240101".toList 0 "sid" c4State c4Prompt

def c3Remote : Str → RemoteResult :=
  fun _ => RemoteResult.parsed "ticket_lookup" 90 "user asks about a ticket"

def c3Msg : Str := "please look up my ticket".toList

def c8Ticket : Ticket :=
  { ticket_id := "TCKT-20240101-001".toList, user_session_id := "s",
    issue_description := "tv arrived damaged".toList,
    status := "Open".toList, priority := "Medium", category := "Returns",
    created_at := 0, updated_at := 0 }

/-! ## Claim theorems -/

/-- C1: any message containing a `TCKT-` + 8 digits + `-` + 3 digits
substring (found after upper-casing the message) classifies as
`ticket_lookup` with confidence 0.99 on the remote-capable path (for every
behaviour of the remote classifier, which is therefore never consulted) and
on the fallback-only path alike. -/
theorem c1_ticket_pattern_priority (client : Bool)
    (remote : Str → RemoteResult) (msg : Str)
    (h : searchTicket (upperStr msg) = true) :
    (classify_query_with_ai client remote msg).intent = "ticket_lookup" ∧
    (classify_query_with_ai client remote msg).confidence = 99 ∧
    (fallback_classification msg).intent = "ticket_lookup" ∧
    (fallback_classification msg).confidence = 99 := by
  cases client <;> simp [classify_query_with_ai, fallback_classification, h]

/-- Witness for C1: a lower-case ticket id buried in refund-keyword text,
with a remote oracle that would answer `refund` if it were consulted. -/
theorem c1_witness :
    searchTicket (upperStr "refund tckt-20240101-001 now".toList) = true ∧
    (classify_query_with_ai true (fun _ => RemoteResult.parsed "refund" 90 "r")
        "refund tckt-20240101-001 now".toList).intent = "ticket_lookup" ∧
    (classify_query_with_ai true (fun _ => RemoteResult.parsed "refund" 90 "r")
        "refund tckt-20240101-001 now".toList).confidence = 99 ∧
    (fallback_classification "refund tckt-20240101-001 now".toList).intent =
      "ticket_lookup" ∧
    (fallback_classification "refund tckt-20240101-001 now".toList).confidence =
      99 := by
  have h := c1_ticket_pattern_priority true
    (fun _ => RemoteResult.parsed "refund" 90 "r")
    "refund tckt-20240101-001 now".toList (by decide)
  exact ⟨by decide, h.1, h.2.1, h.2.2.1, h.2.2.2⟩

/-- C6: `get_ticket_priority` returns Urgent if the lower-cased message
contains an urgent keyword (this check takes precedence), else High if it
contains a high keyword, else Medium. -/
theorem c6_ticket_priority_rules :
    (∀ msg : Str, containsAny (lowerStr msg) urgentKeywords = true →
      get_ticket_priority msg = "Urgent") ∧
    (∀ msg : Str, containsAny (lowerStr msg) urgentKeywords = false →
      containsAny (lowerStr msg) highKeywords = true →
      get_ticket_priority msg = "High") ∧
    (∀ msg : Str, containsAny (lowerStr msg) urgentKeywords = false →
      containsAny (lowerStr msg) highKeywords = false →
      get_ticket_priority msg = "Medium") := by
  refine ⟨fun msg h => ?_, fun msg h1 h2 => ?_, fun msg h1 h2 => ?_⟩
  · simp [get_ticket_priority, h]
  · simp [get_ticket_priority, h1, h2]
  · simp [get_ticket_priority, h1, h2]

/-- Witness for C6, including a message matching both keyword sets. -/
theorem c6_witness :
    get_ticket_priority "urgent deadline".toList = "Urgent" ∧
    get_ticket_priority "deadline soon".toList = "High" ∧
    get_ticket_priority "greetings".toList = "Medium" :=
  ⟨c6_ticket_priority_rules.1 _ (by decide),
   c6_ticket_priority_rules.2.1 _ (by decide) (by decide),
   c6_ticket_priority_rules.2.2 _ (by decide) (by decide)⟩

/-- C7: on the fallback-only path, "I want to return this broken item"
classifies as `return`, whose policy is non-answerable with a follow-up; the
emitted response ends with the return-ticket offer; and the session enters
the pending-confirmation state with category Returns and priority Urgent. -/
theorem c7_fallback_end_to_end :
    fallback_classification c7Msg = ⟨"return", 70, "Return keywords"⟩ ∧
    returnConfig.can_answer = false ∧
    returnConfig.follow_up =
      some "Would you like me to create a return ticket for you?" ∧
    c7Turn = .ok (returnConfig.response ++ "\n\n" ++
        "Would you like me to create a return ticket for you?",
      ⟨true, some ⟨c7Msg, "Returns", "Urgent"⟩, []⟩) ∧
    ("Would you like me to create a return ticket for you?".toList).isSuffixOf
      (returnConfig.response ++ "\n\n" ++
        "Would you like me to create a return ticket for you?").toList =
      true := by
  exact ⟨by decide, rfl, rfl, rfl, by decide⟩

/-- C4 counterexample: "cancel my order" contains the negative token
`cancel`, yet the turn creates a ticket and does not emit the decline
acknowledgement, because the affirmative check runs first and the letter `y`
of "my" is an affirmative token. -/
theorem c4_counterexample :
    containsAny (lowerStr c4Prompt) negTokens = true ∧
    (turnNext c4Turn).store.length = 1 ∧
    turnResp c4Turn ≠ declineResponse := by
  exact ⟨by decide, by decide, by decide⟩

/-- C4 amended: in the pending-confirmation state, a message that contains a
negative token and no affirmative token (`yes`, `please`, `create`, `y` as
substrings, which the handler checks first) emits the decline
acknowledgement, returns to the idle state, clears the pending information
and creates no ticket. -/
theorem c4_amended_negative_declines (client : Bool)
    (remote : Str → RemoteResult) (llm : Str → String) (today : Str)
    (now : Nat) (sid : String) (info : Option PendingInfo)
    (store : List Ticket) (prompt : Str)
    (hneg : containsAny (lowerStr prompt) negTokens = true)
    (haff : containsAny (lowerStr prompt) affirmTokens = false) :
    handle_turn client remote llm today now sid ⟨true, info, store⟩ prompt =
      .ok (declineResponse, ⟨false, none, store⟩) := by
  simp [handle_turn, haff, hneg]

/-- Witness for the amended C4 at the message "no". -/
theorem c4_amended_witness :
    containsAny (lowerStr "no".toList) negTokens = true ∧
    containsAny (lowerStr "no".toList) affirmTokens = false ∧
    handle_turn false (fun _ => RemoteResult.exn) (fun _ => "")
      "20240101".toList 0 "sid" ⟨true, none, []⟩ "no".toList =
      .ok (declineResponse, ⟨false, none, []⟩) :=
  ⟨by decide, by decide,
   c4_amended_negative_declines false (fun _ => RemoteResult.exn) (fun _ => "")
     "20240101".toList 0 "sid" none [] "no".toList (by decide) (by decide)⟩

/-- C3 (code bug): when the remote classifier labels a message
`ticket_lookup` although the message contains no ticket-id substring,
`classify_query` evaluates `re.search(...).group()` on `None` and raises
`AttributeError` to its caller instead of degrading to the fallback. -/
theorem c3_classify_query_raises :
    searchTicket (upperStr c3Msg) = false ∧
    classify_query true c3Remote c3Msg = .error .attributeError :=
  ⟨by decide, rfl⟩

/-- C9: an intent that is not a key of the policy table resolves to the
`complex` policy (non-answerable, ticket-offer follow-up present); in
particular a remote label outside the 11 known categories is first coerced
to `complex` and then resolves to the table's `complex` policy. -/
theorem c9_unknown_intent_resolves_complex :
    (∀ (intent : String) (conf : Nat) (reas : String),
      faq_responses intent = none →
      (resolve_intent intent conf reas).1 = "complex" ∧
      (resolve_intent intent conf reas).2.can_answer = false ∧
      (resolve_intent intent conf reas).2.follow_up =
        some "Would you like me to create a support ticket for you?") ∧
    (∀ (remote : Str → RemoteResult) (msg : Str) (label : String)
      (conf : Nat) (reas : String),
      remote msg = RemoteResult.parsed label conf reas →
      validIntents.contains label = false →
      searchTicket (upperStr msg) = false →
      classify_query true remote msg =
        .ok ("complex", .config (withAi complexConfig 50 reas)) ∧
      (withAi complexConfig 50 reas).can_answer = false ∧
      (withAi complexConfig 50 reas).follow_up =
        some "Would you like me to create a support ticket for you?") := by
  constructor
  · intro intent conf reas h
    simp [resolve_intent, h, complexDefault]
  · intro remote msg label conf reas hr hv hs
    have hv2 : ¬ label ∈ validIntents := by simpa using hv
    have hc : classify_query_with_ai true remote msg = ⟨"complex", 50, reas⟩ := by
      simp [classify_query_with_ai, hs, hr, hv2]
    refine ⟨?_, rfl, rfl⟩
    simp [classify_query, hc, resolve_intent, faq_responses, withAi]

/-- Witness for C9: the unknown remote label "banana". -/
theorem c9_witness :
    faq_responses "banana" = none ∧
    (resolve_intent "banana" 40 "r").1 = "complex" ∧
    (resolve_intent "banana" 40 "r").2.can_answer = false ∧
    (resolve_intent "banana" 40 "r").2.follow_up =
      some "Would you like me to create a support ticket for you?" ∧
    classify_query true (fun _ => RemoteResult.parsed "banana" 40 "r")
        "zzz".toList =
      .ok ("complex", .config (withAi complexConfig 50 "r")) := by
  have h1 := c9_unknown_intent_resolves_complex.1 "banana" 40 "r" rfl
  have h2 := c9_unknown_intent_resolves_complex.2
    (fun _ => RemoteResult.parsed "banana" 40 "r") "zzz".toList "banana" 40 "r"
    rfl (by decide) (by decide)
  exact ⟨rfl, h1.1, h1.2.1, h1.2.2, h2.1⟩

/-- C8: `update_ticket_status` returns `None` and leaves the store unchanged
when no row matches the upper-cased ticket id; on a match it sets the status,
stamps `updated_at`, sets `assigned_agent` only when an agent argument is
supplied (and non-empty), and stamps `resolved_at` exactly when the
lower-cased new status is `resolved` or `closed`. -/
theorem c8_update_ticket_status_contract (store : List Ticket) (now : Nat)
    (tid : Str) (status : Str) (agent : Option Str) :
    (store.find? (fun u => u.ticket_id == upperStr tid) = none →
      update_ticket_status store now tid status agent = (none, store)) ∧
    (∀ t, store.find? (fun u => u.ticket_id == upperStr tid) = some t →
      ∃ t3, update_ticket_status store now tid status agent =
          (some t3,
           updateFirst (fun u => u.ticket_id == upperStr tid) (fun _ => t3)
             store) ∧
        t3.ticket_id = t.ticket_id ∧
        t3.status = status ∧
        t3.updated_at = now ∧
        (agent = none → t3.assigned_agent = t.assigned_agent) ∧
        (∀ s, agent = some s → s.isEmpty = false →
          t3.assigned_agent = some s) ∧
        t3.resolved_at =
          (if lowerStr status == "resolved".toList ||
              lowerStr status == "closed".toList then some now
           else t.resolved_at)) := by
  have fields : ∀ t : Ticket,
      (updatedTicket t now status agent).ticket_id = t.ticket_id ∧
      (updatedTicket t now status agent).status = status ∧
      (updatedTicket t now status agent).updated_at = now ∧
      (updatedTicket t now status agent).assigned_agent =
        (if truthyStr agent then agent else t.assigned_agent) ∧
      (updatedTicket t now status agent).resolved_at =
        (if lowerStr status == "resolved".toList ||
            lowerStr status == "closed".toList then some now
         else t.resolved_at) := by
    intro t
    simp only [updatedTicket]
    split_ifs <;> simp_all
  constructor
  · intro h
    simp [update_ticket_status, h]
  · intro t h
    have hfound : update_ticket_status store now tid status agent =
        (some (updatedTicket t now status agent),
         updateFirst (fun u => u.ticket_id == upperStr tid)
           (fun _ => updatedTicket t now status agent) store) := by
      simp [update_ticket_status, h]
    refine ⟨updatedTicket t now status agent, hfound,
      (fields t).1, (fields t).2.1, (fields t).2.2.1, ?_, ?_,
      (fields t).2.2.2.2⟩
    · intro ha
      rw [(fields t).2.2.2.1]
      simp [ha, truthyStr]
    · intro s ha hse
      rw [(fields t).2.2.2.1]
      simp [ha, truthyStr, hse]

/-- Witness for C8: a miss on the empty store and a hit that resolves an
existing ticket through a lower-cased id. -/
theorem c8_witness :
    (update_ticket_status [] 5 "TCKT-20240101-001".toList "Open".toList
      none = (none, [])) ∧
    (∃ t3, update_ticket_status [c8Ticket] 5 "tckt-20240101-001".toList
        "Resolved".toList none =
        (some t3,
         updateFirst
           (fun u => u.ticket_id == upperStr "tckt-20240101-001".toList)
           (fun _ => t3) [c8Ticket]) ∧
      t3.ticket_id = c8Ticket.ticket_id ∧
      t3.status = "Resolved".toList ∧
      t3.updated_at = 5 ∧
      ((none : Option Str) = none →
        t3.assigned_agent = c8Ticket.assigned_agent) ∧
      (∀ s, (none : Option Str) = some s → s.isEmpty = false →
        t3.assigned_agent = some s) ∧
      t3.resolved_at =
        (if lowerStr "Resolved".toList == "resolved".toList ||
            lowerStr "Resolved".toList == "closed".toList then some 5
         else c8Ticket.resolved_at)) :=
  ⟨(c8_update_ticket_status_contract [] 5 "TCKT-20240101-001".toList
      "Open".toList none).1 rfl,
   (c8_update_ticket_status_contract [c8Ticket] 5 "tckt-20240101-001".toList
      "Resolved".toList none).2 c8Ticket (by decide)⟩

lemma parseNat_snoc (l : Str) (c : Char) :
    parseNat (l ++ [c]) = 10 * parseNat l + digitVal c := by
  simp [parseNat, List.foldl_append]

lemma digitVal_digitChar (d : Nat) (h : d < 10) :
    digitVal (digitChar d) = d := by
  interval_cases d <;> rfl

lemma parseNat_decimalAux : ∀ (fuel n : Nat), n < fuel →
    parseNat (decimalAux fuel n) = n := by
  intro fuel
  induction fuel with
  | zero => intro n h; omega
  | succ fuel ih =>
    intro n h
    by_cases h10 : n < 10
    · simp [decimalAux, h10, parseNat, digitVal_digitChar n h10]
    · have hdiv : n / 10 < fuel := by
        have := Nat.div_lt_self (by omega : 0 < n) (by omega : 1 < 10)
        omega
      rw [decimalAux, if_neg h10, parseNat_snoc, ih (n / 10) hdiv,
        digitVal_digitChar (n % 10) (Nat.mod_lt n (by omega))]
      omega

lemma parseNat_decimal (n : Nat) : parseNat (decimal n) = n :=
  parseNat_decimalAux (n + 1) n (Nat.lt_succ_self n)

lemma parseNat_zeros : ∀ (k : Nat) (s : Str),
    parseNat (List.replicate k '0' ++ s) = parseNat s := by
  intro k
  induction k with
  | zero => intro s; rfl
  | succ k ih =>
    intro s
    have hz : List.replicate (k + 1) '0' ++ s =
        '0' :: (List.replicate k '0' ++ s) := by
      simp [List.replicate_succ]
    rw [hz]
    show List.foldl (fun a c => 10 * a + digitVal c)
      (10 * 0 + digitVal '0') (List.replicate k '0' ++ s) = parseNat s
    have h0 : 10 * 0 + digitVal '0' = 0 := rfl
    rw [h0]
    exact ih s

lemma parseNat_zfill3 (s : Str) : parseNat (zfill3 s) = parseNat s :=
  parseNat_zeros _ s

lemma zfill3_decimal_injective {m n : Nat}
    (h : zfill3 (decimal m) = zfill3 (decimal n)) : m = n := by
  have hp := congrArg parseNat h
  rwa [parseNat_zfill3, parseNat_zfill3, parseNat_decimal,
    parseNat_decimal] at hp

lemma decimalAux_length : ∀ (fuel n k : Nat), n < fuel → n < 10 ^ (k + 1) →
    (decimalAux fuel n).length ≤ k + 1 := by
  intro fuel
  induction fuel with
  | zero => intro n k h hk; omega
  | succ fuel ih =>
    intro n k h hk
    by_cases h10 : n < 10
    · simp [decimalAux, h10]
    · obtain ⟨j, rfl⟩ : ∃ j, k = j + 1 := by
        refine ⟨k - 1, ?_⟩
        rcases Nat.eq_zero_or_pos k with hk0 | hk0
        · subst hk0; simp at hk; omega
        · omega
      have hdiv : n / 10 < fuel := by
        have := Nat.div_lt_self (by omega : 0 < n) (by omega : 1 < 10)
        omega
      have hdivpow : n / 10 < 10 ^ (j + 1) := by
        rw [Nat.div_lt_iff_lt_mul (by omega : 0 < 10)]
        calc n < 10 ^ (j + 1 + 1) := hk
        _ = 10 ^ (j + 1) * 10 := by rw [pow_succ]
      have hlen := ih (n / 10) j hdiv hdivpow
      rw [decimalAux, if_neg h10, List.length_append]
      simp only [List.length_cons, List.length_nil]
      omega

lemma zfill3_length_of_le (s : Str) (h : s.length ≤ 3) :
    (zfill3 s).length = 3 := by
  simp only [zfill3, List.length_append, List.length_replicate]
  omega

lemma isPrefixOf_append_self (p x : Str) : p.isPrefixOf (p ++ x) = true := by
  induction p with
  | nil => simp [List.isPrefixOf]
  | cons c t ih => simp [List.isPrefixOf, ih]

lemma countToday_append (store : List Ticket) (today : Str) (t : Ticket) :
    countToday (store ++ [t]) today =
      countToday store today +
        (if (ticketDayPrefix today).isPrefixOf t.ticket_id then 1 else 0) := by
  simp only [countToday, List.filter_append, List.length_append]
  congr 1
  by_cases h : (ticketDayPrefix today).isPrefixOf t.ticket_id = true <;>
    simp [List.filter, h]

lemma countToday_create (store : List Ticket) (today : Str) (now : Nat)
    (sid : String) (desc : Str) (cat : String) (prio : String) :
    countToday (create_support_ticket store today now sid desc cat prio).2
      today = countToday store today + 1 := by
  simp only [create_support_ticket]
  rw [countToday_append]
  have h : (ticketDayPrefix today).isPrefixOf
      (generate_ticket_id store today) = true := by
    unfold generate_ticket_id
    exact isPrefixOf_append_self _ _
  simp [h]

lemma countToday_createSeq (store : List Ticket) (today : Str) (now : Nat)
    (sid : String) (desc : Str) (cat : String) (prio : String) :
    ∀ n, countToday (createSeq store today now sid desc cat prio n) today =
      countToday store today + n := by
  intro n
  induction n with
  | zero => rfl
  | succ n ih =>
    show countToday (create_support_ticket _ _ _ _ _ _ _).2 today = _
    rw [countToday_create, ih]
    omega

lemma seqTicketId_eq (store : List Ticket) (today : Str) (now : Nat)
    (sid : String) (desc : Str) (cat : String) (prio : String)
    (h0 : countToday store today = 0) (i : Nat) :
    seqTicketId store today now sid desc cat prio i =
      ticketDayPrefix today ++ zfill3 (decimal (i + 1)) := by
  unfold seqTicketId generate_ticket_id
  rw [countToday_createSeq, h0]
  simp

lemma append_inj_right (p : Str) : ∀ a b : Str, p ++ a = p ++ b → a = b := by
  induction p with
  | nil => intro a b h; exact h
  | cons c t ih =>
    intro a b h
    injection h with h1 h2
    exact ih a b h2

/-- C5: creating `N` tickets sequentially on one calendar day, starting from
a store with no ticket of that day yet, assigns the id
`TCKT-{today}-` + `str(i+1).zfill(3)` to the `i`-th ticket: the first ticket
receives suffix 001, the suffixes are sequential, all generated ids are
pairwise distinct, the suffixes are exactly 3 digits long for `N ≤ 999`, and
each call inserts exactly the one ticket carrying that id. -/
theorem c5_sequential_ticket_ids (store : List Ticket) (today : Str)
    (now : Nat) (sid : String) (desc : Str) (cat : String) (prio : String)
    (N : Nat) (h0 : countToday store today = 0) :
    (∀ i, i < N → seqTicketId store today now sid desc cat prio i =
      ticketDayPrefix today ++ zfill3 (decimal (i + 1))) ∧
    (0 < N → seqTicketId store today now sid desc cat prio 0 =
      ticketDayPrefix today ++ "001".toList) ∧
    (∀ i j, i < N → j < N → i ≠ j →
      seqTicketId store today now sid desc cat prio i ≠
        seqTicketId store today now sid desc cat prio j) ∧
    (∀ i, i < N → N ≤ 999 → (zfill3 (decimal (i + 1))).length = 3) ∧
    (∀ i, i < N → ∃ t,
      createSeq store today now sid desc cat prio (i + 1) =
        createSeq store today now sid desc cat prio i ++ [t] ∧
      t.ticket_id = seqTicketId store today now sid desc cat prio i) := by
  refine ⟨fun i _ => seqTicketId_eq store today now sid desc cat prio h0 i,
    ?_, ?_, ?_, ?_⟩
  · intro hN
    rw [seqTicketId_eq store today now sid desc cat prio h0 0]
    rfl
  · intro i j hi hj hne heq
    rw [seqTicketId_eq store today now sid desc cat prio h0 i,
      seqTicketId_eq store today now sid desc cat prio h0 j] at heq
    have hz := append_inj_right _ _ _ heq
    have := zfill3_decimal_injective hz
    omega
  · intro i hi hN
    apply zfill3_length_of_le
    have hpow : i + 1 < 10 ^ (2 + 1) := by norm_num; omega
    exact decimalAux_length (i + 1 + 1) (i + 1) 2 (Nat.lt_succ_self _) hpow
  · intro i hi
    exact ⟨_, rfl, rfl⟩

/-- Witness for C5: two tickets created on an empty store. -/
theorem c5_witness :
    seqTicketId [] "20240101".toList 0 "s" [] "General Support" "Medium" 0 =
      ticketDayPrefix "20240101".toList ++ zfill3 (decimal (0 + 1)) ∧
    seqTicketId [] "20240101".toList 0 "s" [] "General Support" "Medium" 0 =
      ticketDayPrefix "20240101".toList ++ "001".toList ∧
    seqTicketId [] "20240101".toList 0 "s" [] "General Support" "Medium" 0 ≠
      seqTicketId [] "20240101".toList 0 "s" [] "General Support" "Medium" 1 ∧
    (zfill3 (decimal (0 + 1))).length = 3 := by
  have h := c5_sequential_ticket_ids [] "20240101".toList 0 "s" []
    "General Support" "Medium" 2 rfl
  exact ⟨h.1 0 (by omega), h.2.1 (by omega),
    h.2.2.1 0 1 (by omega) (by omega) (by omega),
    h.2.2.2.1 0 (by omega) (by omega)⟩

lemma resolve_intent_of_none {intent : String} {conf : Nat} {reas : String}
    (h : faq_responses intent = none) :
    resolve_intent intent conf reas = ("complex", complexDefault conf reas) := by
  simp [resolve_intent, h]

lemma resolve_intent_of_some {intent : String} {conf : Nat} {reas : String}
    {base : ResponseConfig} (h : faq_responses intent = some base) :
    resolve_intent intent conf reas = (intent, withAi base conf reas) := by
  simp [resolve_intent, h]

lemma classify_config_cases (client : Bool) (remote : Str → RemoteResult)
    (msg : Str) (qt : String) (cfg : ResponseConfig)
    (h : classify_query client remote msg = .ok (qt, .config cfg)) :
    qt ≠ "ticket_lookup" ∧
      (cfg.can_answer = false → qt ≠ "ticket_status_request") := by
  simp only [classify_query] at h
  by_cases hI : (classify_query_with_ai client remote msg).intent =
      "ticket_lookup"
  · rw [if_pos hI] at h
    by_cases hS : searchTicket (upperStr msg) = true
    · rw [if_pos hS] at h
      simp at h
    · rw [if_neg hS] at h
      simp at h
  · rw [if_neg hI] at h
    simp only [Except.ok.injEq, Prod.mk.injEq, QueryInfo.config.injEq] at h
    obtain ⟨hqt, hcfg⟩ := h
    cases hfa : faq_responses (classify_query_with_ai client remote msg).intent with
    | none =>
      rw [resolve_intent_of_none hfa] at hqt
      have hq2 : qt = "complex" := by rw [← hqt]
      refine ⟨?_, fun _ => ?_⟩ <;> · rw [hq2]; decide
    | some base =>
      rw [resolve_intent_of_some hfa] at hqt hcfg
      have hq2 : qt = (classify_query_with_ai client remote msg).intent := by
        rw [← hqt]
      have hc2 : cfg = withAi base
          (classify_query_with_ai client remote msg).confidence
          (classify_query_with_ai client remote msg).reasoning := by
        rw [← hcfg]
      refine ⟨?_, ?_⟩
      · rw [hq2]; exact hI
      · intro hcan hqt2
        have hcint : (classify_query_with_ai client remote msg).intent =
            "ticket_status_request" := by rw [← hq2, hqt2]
        rw [hcint] at hfa
        have hbase : ticketStatusRequestConfig = base := by
          have h2 := hfa
          rw [show faq_responses "ticket_status_request" =
            some ticketStatusRequestConfig from rfl] at h2
          exact Option.some.inj h2
        rw [hc2, ← hbase] at hcan
        simp [withAi, ticketStatusRequestConfig] at hcan

/-- C2: the confirmation-flow state machine.  From the idle state, a turn
whose resolved policy is non-answerable with a (truthy) follow-up enters the
pending-confirmation state, stores the pending description/category/priority
and creates no ticket; in the pending state, a message matching the
affirmative rule creates exactly one ticket and returns to idle with the
pending state cleared; a message matching the negative rule (no affirmative
token, a negative token) creates no ticket and returns to idle with the
pending state cleared; any other message re-prompts and leaves the pending
state unchanged. -/
theorem c2_confirmation_state_machine :
    (∀ (client : Bool) (remote : Str → RemoteResult) (llm : Str → String)
      (today : Str) (now : Nat) (sid : String) (info : Option PendingInfo)
      (store : List Ticket) (prompt : Str) (qt : String)
      (cfg : ResponseConfig) (fu : String),
      classify_query client remote prompt = .ok (qt, .config cfg) →
      cfg.can_answer = false → cfg.follow_up = some fu → fu ≠ "" →
      handle_turn client remote llm today now sid ⟨false, info, store⟩ prompt =
        .ok (cfg.response ++ "\n\n" ++ fu,
          ⟨true, some ⟨prompt, get_ticket_category qt,
            get_ticket_priority prompt⟩, store⟩)) ∧
    (∀ (client : Bool) (remote : Str → RemoteResult) (llm : Str → String)
      (today : Str) (now : Nat) (sid : String) (info : Option PendingInfo)
      (store : List Ticket) (prompt : Str),
      containsAny (lowerStr prompt) affirmTokens = true →
      ∃ t, handle_turn client remote llm today now sid ⟨true, info, store⟩
          prompt =
        .ok (createdResponse t.ticket_id, ⟨false, none, store ++ [t]⟩)) ∧
    (∀ (client : Bool) (remote : Str → RemoteResult) (llm : Str → String)
      (today : Str) (now : Nat) (sid : String) (info : Option PendingInfo)
      (store : List Ticket) (prompt : Str),
      containsAny (lowerStr prompt) affirmTokens = false →
      containsAny (lowerStr prompt) negTokens = true →
      handle_turn client remote llm today now sid ⟨true, info, store⟩ prompt =
        .ok (declineResponse, ⟨false, none, store⟩)) ∧
    (∀ (client : Bool) (remote : Str → RemoteResult) (llm : Str → String)
      (today : Str) (now : Nat) (sid : String) (info : Option PendingInfo)
      (store : List Ticket) (prompt : Str),
      containsAny (lowerStr prompt) affirmTokens = false →
      containsAny (lowerStr prompt) negTokens = false →
      handle_turn client remote llm today now sid ⟨true, info, store⟩ prompt =
        .ok (repromptResponse, ⟨true, info, store⟩)) := by
  refine ⟨?_, ?_, ?_, ?_⟩
  · intro client remote llm today now sid info store prompt qt cfg fu
      h hcan hfu hne
    have hcc := classify_config_cases client remote prompt qt cfg h
    have hqs : qt ≠ "ticket_status_request" := hcc.2 hcan
    simp [handle_turn, h, hqs, hcan, hfu, truthyOptString, hne]
  · intro client remote llm today now sid info store prompt haff
    refine ⟨(create_support_ticket store today now sid
      (pendingDescription info prompt) (pendingCategory info)
      (pendingPriority info)).1, ?_⟩
    simp only [handle_turn, haff]
    rfl
  · intro client remote llm today now sid info store prompt haff hneg
    simp [handle_turn, haff, hneg]
  · intro client remote llm today now sid info store prompt haff hneg
    simp [handle_turn, haff, hneg]

/-- Witness for C2: the return scenario enters pending confirmation, then
"yes" creates one ticket, "no" creates none, "hmm" re-prompts. -/
theorem c2_witness :
    (handle_turn false (fun _ => RemoteResult.exn) (fun _ => "")
        "20240101".toList 0 "sid" ⟨false, none, []⟩ c7Msg =
      .ok ((withAi returnConfig 70 "Return keywords").response ++ "\n\n" ++
          "Would you like me to create a return ticket for you?",
        ⟨true, some ⟨c7Msg, get_ticket_category "return",
          get_ticket_priority c7Msg⟩, []⟩)) ∧
    (∃ t, handle_turn false (fun _ => RemoteResult.exn) (fun _ => "")
        "20240101".toList 0 "sid"
        ⟨true, some ⟨"tv arrived damaged".toList, "Returns", "Urgent"⟩, []⟩
        "yes".toList =
      .ok (createdResponse t.ticket_id, ⟨false, none, [] ++ [t]⟩)) ∧
    (handle_turn false (fun _ => RemoteResult.exn) (fun _ => "")
        "20240101".toList 0 "sid"
        ⟨true, some ⟨"tv arrived damaged".toList, "Returns", "Urgent"⟩, []⟩
        "no".toList =
      .ok (declineResponse, ⟨false, none, []⟩)) ∧
    (handle_turn false (fun _ => RemoteResult.exn) (fun _ => "")
        "20240101".toList 0 "sid"
        ⟨true, some ⟨"tv arrived damaged".toList, "Returns", "Urgent"⟩, []⟩
        "hmm".toList =
      .ok (repromptResponse,
        ⟨true, some ⟨"tv arrived damaged".toList, "Returns", "Urgent"⟩, []⟩)) :=
  ⟨c2_confirmation_state_machine.1 false (fun _ => RemoteResult.exn)
      (fun _ => "") "20240101".toList 0 "sid" none [] c7Msg "return"
      (withAi returnConfig 70 "Return keywords")
      "Would you like me to create a return ticket for you?" rfl rfl rfl
      (by decide),
   c2_confirmation_state_machine.2.1 false (fun _ => RemoteResult.exn)
      (fun _ => "") "20240101".toList 0 "sid"
      (some ⟨"tv arrived damaged".toList, "Returns", "Urgent"⟩) []
      "yes".toList (by decide),
   c2_confirmation_state_machine.2.2.1 false (fun _ => RemoteResult.exn)
      (fun _ => "") "20240101".toList 0 "sid"
      (some ⟨"tv arrived damaged".toList, "Returns", "Urgent"⟩) []
      "no".toList (by decide) (by decide),
   c2_confirmation_state_machine.2.2.2 false (fun _ => RemoteResult.exn)
      (fun _ => "") "20240101".toList 0 "sid"
      (some ⟨"tv arrived damaged".toList, "Returns", "Urgent"⟩) []
      "hmm".toList (by decide) (by decide)⟩

/-- C10: while a session awaits ticket confirmation, the turn is routed
exclusively to the confirmation handler: the result does not depend on the
classifier oracles (classifier and resolver are never invoked), and the
stored pending information is either cleared or left unchanged, never
replaced by a new offer.  From the idle state, a turn that ends pending
carries exactly the offer computed from the current prompt, and the chat
reset clears the pending state, so at most one un-replaced pending offer
exists at any time. -/
theorem c10_pending_exclusive_routing :
    (∀ (c1 c2 : Bool) (r1 r2 : Str → RemoteResult) (l1 l2 : Str → String)
      (today : Str) (now : Nat) (sid : String) (info : Option PendingInfo)
      (store : List Ticket) (prompt : Str),
      handle_turn c1 r1 l1 today now sid ⟨true, info, store⟩ prompt =
        handle_turn c2 r2 l2 today now sid ⟨true, info, store⟩ prompt) ∧
    (∀ (client : Bool) (remote : Str → RemoteResult) (llm : Str → String)
      (today : Str) (now : Nat) (sid : String) (info : Option PendingInfo)
      (store : List Ticket) (prompt : Str),
      (turnNext (handle_turn client remote llm today now sid
          ⟨true, info, store⟩ prompt)).pending_ticket_info = none ∨
      (turnNext (handle_turn client remote llm today now sid
          ⟨true, info, store⟩ prompt)).pending_ticket_info = info) ∧
    (∀ (client : Bool) (remote : Str → RemoteResult) (llm : Str → String)
      (today : Str) (now : Nat) (sid : String) (info : Option PendingInfo)
      (store : List Ticket) (prompt : Str),
      (turnNext (handle_turn client remote llm today now sid
          ⟨false, info, store⟩ prompt)).pending_ticket_creation = true →
      ∃ qt cfg, classify_query client remote prompt = .ok (qt, .config cfg) ∧
        (turnNext (handle_turn client remote llm today now sid
            ⟨false, info, store⟩ prompt)).pending_ticket_info =
          some ⟨prompt, get_ticket_category qt, get_ticket_priority prompt⟩) ∧
    (∀ st : TurnState, (clear_chat st).pending_ticket_creation = false ∧
      (clear_chat st).pending_ticket_info = none) := by
  refine ⟨?_, ?_, ?_, fun st => ⟨rfl, rfl⟩⟩
  · intro c1 c2 r1 r2 l1 l2 today now sid info store prompt
    rfl
  · intro client remote llm today now sid info store prompt
    by_cases haff : containsAny (lowerStr prompt) affirmTokens = true
    · left
      simp [handle_turn, haff, turnNext]
    · by_cases hneg : containsAny (lowerStr prompt) negTokens = true
      · left
        simp [handle_turn, haff, hneg, turnNext]
      · right
        simp [handle_turn, haff, hneg, turnNext]
  · intro client remote llm today now sid info store prompt hpend
    cases hcq : classify_query client remote prompt with
    | error e =>
      rw [show handle_turn client remote llm today now sid
          ⟨false, info, store⟩ prompt = .error e by
        simp [handle_turn, hcq]] at hpend
      simp [turnNext] at hpend
    | ok val =>
      obtain ⟨qt, qi⟩ := val
      cases qi with
      | ticketInfo tid =>
        cases hfind : get_ticket_by_id store tid <;>
          simp [handle_turn, hcq, hfind, turnNext] at hpend
      | config cfg =>
        by_cases hts : qt = "ticket_status_request"
        · simp [handle_turn, hcq, hts, turnNext] at hpend
        · by_cases hca : cfg.can_answer = true
          · simp [handle_turn, hcq, hts, hca, turnNext] at hpend
          · by_cases hfu : truthyOptString cfg.follow_up = true
            · exact ⟨qt, cfg, rfl,
                by simp [handle_turn, hcq, hts, hca, hfu, turnNext]⟩
            · simp [handle_turn, hcq, hts, hca, hfu, turnNext] at hpend

/-- Witness for C10: two different oracle triples agree on a pending turn;
the ambiguous pending turn keeps its info; the idle return scenario ends
pending with the offer of the current prompt; the reset clears. -/
theorem c10_witness :
    (handle_turn true (fun _ => RemoteResult.parsed "refund" 90 "r")
        (fun _ => "llm reply") "20240101".toList 0 "sid"
        ⟨true, some ⟨"tv arrived damaged".toList, "Returns", "Urgent"⟩, []⟩
        "hmm".toList =
      handle_turn false (fun _ => RemoteResult.exn) (fun _ => "")
        "20240101".toList 0 "sid"
        ⟨true, some ⟨"tv arrived damaged".toList, "Returns", "Urgent"⟩, []⟩
        "hmm".toList) ∧
    ((turnNext (handle_turn false (fun _ => RemoteResult.exn) (fun _ => "")
        "20240101".toList 0 "sid"
        ⟨true, some ⟨"tv arrived damaged".toList, "Returns", "Urgent"⟩, []⟩
        "hmm".toList)).pending_ticket_info = none ∨
     (turnNext (handle_turn false (fun _ => RemoteResult.exn) (fun _ => "")
        "20240101".toList 0 "sid"
        ⟨true, some ⟨"tv arrived damaged".toList, "Returns", "Urgent"⟩, []⟩
        "hmm".toList)).pending_ticket_info =
       some ⟨"tv arrived damaged".toList, "Returns", "Urgent"⟩) ∧
    (∃ qt cfg, classify_query false (fun _ => RemoteResult.exn) c7Msg =
        .ok (qt, .config cfg) ∧
      (turnNext (handle_turn false (fun _ => RemoteResult.exn) (fun _ => "")
          "20240101".toList 0 "sid" ⟨false, none, []⟩
          c7Msg)).pending_ticket_info =
        some ⟨c7Msg, get_ticket_category qt, get_ticket_priority c7Msg⟩) ∧
    ((clear_chat ⟨true,
        some ⟨"tv arrived damaged".toList, "Returns", "Urgent"⟩,
        []⟩).pending_ticket_creation = false ∧
     (clear_chat ⟨true,
        some ⟨"tv arrived damaged".toList, "Returns", "Urgent"⟩,
        []⟩).pending_ticket_info = none) :=
  ⟨c10_pending_exclusive_routing.1 true false
      (fun _ => RemoteResult.parsed "refund" 90 "r") (fun _ => RemoteResult.exn)
      (fun _ => "llm reply") (fun _ => "") "20240101".toList 0 "sid"
      (some ⟨"tv arrived damaged".toList, "Returns", "Urgent"⟩) []
      "hmm".toList,
   c10_pending_exclusive_routing.2.1 false (fun _ => RemoteResult.exn)
      (fun _ => "") "20240101".toList 0 "sid"
      (some ⟨"tv arrived damaged".toList, "Returns", "Urgent"⟩) []
      "hmm".toList,
   c10_pending_exclusive_routing.2.2.1 false (fun _ => RemoteResult.exn)
      (fun _ => "") "20240101".toList 0 "sid" none [] c7Msg (by decide),
   c10_pending_exclusive_routing.2.2.2
      ⟨true, some ⟨"tv arrived damaged".toList, "Returns", "Urgent"⟩, []⟩⟩
